import Mathlib

/-!
Verification of the hutwatch ingestion-and-resilience core.

The Python source under `src/hutwatch/` is shallowly embedded below:
pure functions become Lean functions, stateful objects become explicit
state-passing, machine reals become exact rationals, `datetime` values
become rational seconds passed explicitly (the source reads the wall
clock with `datetime.now()`), and fallible code returns `Option`.
-/

/-- Model of Python `str.upper()` restricted to the basic latin alphabet
(sensor addresses are hex digits and colons), using Lean's per-character
`Char.toUpper`. -/
def pyUpper (s : String) : String := String.mk (s.data.map Char.toUpper)

theorem char_toNat_ofNat_valid {n : Nat} (h : n < 0xd800) :
    (Char.ofNat n).toNat = n := by
  rw [Char.ofNat, dif_pos (Or.inl h)]
  simp [Char.ofNatAux, Char.toNat, UInt32.toNat]

theorem char_toUpper_toUpper (c : Char) : c.toUpper.toUpper = c.toUpper := by
  unfold Char.toUpper
  by_cases hc : c.toNat ≥ 97 ∧ c.toNat ≤ 122
  · rw [if_pos hc]
    have hlt : c.toNat - 32 < 0xd800 := by omega
    rw [if_neg]
    rw [char_toNat_ofNat_valid hlt]
    omega
  · rw [if_neg hc, if_neg hc]

theorem pyUpper_idem (s : String) : pyUpper (pyUpper s) = pyUpper s := by
  unfold pyUpper
  simp [List.map_map, Function.comp_def, char_toUpper_toUpper]

namespace Hutwatch

/-! ### models.py -/

/-- Model of `models.SensorType` (enum with values "ruuvi" and "xiaomi"). -/
inductive SensorType where
  | ruuvi
  | xiaomi
deriving DecidableEq, Repr

/-- Model of the `.value` string of `models.SensorType`. -/
def SensorType.value : SensorType → String
  | .ruuvi => "ruuvi"
  | .xiaomi => "xiaomi"

/-- Model of `models.SensorReading`.  Floats are embedded as exact
rationals and `datetime` timestamps as rational seconds. -/
structure SensorReading where
  mac : String
  timestamp : ℚ
  temperature : ℚ
  humidity : Option ℚ := none
  battery_voltage : Option ℚ := none
  battery_percent : Option ℕ := none
  pressure : Option ℚ := none
  rssi : Option ℤ := none
deriving DecidableEq, Repr

instance : Inhabited SensorReading :=
  ⟨{ mac := "", timestamp := 0, temperature := 0 }⟩

/-- Construction of a `SensorReading`, including the `__post_init__`
hook of the dataclass which uppercases the address. -/
def SensorReading.make (mac : String) (timestamp : ℚ) (temperature : ℚ)
    (humidity : Option ℚ) (battery_voltage : Option ℚ)
    (battery_percent : Option ℕ) (pressure : Option ℚ)
    (rssi : Option ℤ) : SensorReading :=
  { mac := pyUpper mac, timestamp, temperature, humidity,
    battery_voltage, battery_percent, pressure, rssi }

/-- Model of `models.SensorConfig`; `make` applies `__post_init__`
(uppercasing of the address). -/
structure SensorConfig where
  mac : String
  name : String
  type : SensorType
deriving DecidableEq, Repr

def SensorConfig.make (mac name : String) (type : SensorType) : SensorConfig :=
  { mac := pyUpper mac, name, type }

/-! ### Byte-level helpers shared by the parsers

A payload is a list of naturals (bytes).  `struct.unpack(">H", ...)`,
`">h"`, `"<H"` and `"<h"` on two bytes become the functions below;
out-of-range indices read 0, which never happens under the length
checks the parsers perform first. -/

def byteAt (data : List ℕ) (i : ℕ) : ℕ := data.getD i 0

/-- Big-endian unsigned 16-bit word at offset `i` (`struct.unpack(">H", data[i:i+2])`). -/
def beU16 (data : List ℕ) (i : ℕ) : ℕ := byteAt data i * 256 + byteAt data (i + 1)

/-- Big-endian signed 16-bit word at offset `i` (`struct.unpack(">h", data[i:i+2])`). -/
def beS16 (data : List ℕ) (i : ℕ) : ℤ :=
  let u := beU16 data i
  if u ≥ 32768 then (u : ℤ) - 65536 else (u : ℤ)

/-- Little-endian unsigned 16-bit word at offset `i` (`struct.unpack("<H", data[i:i+2])`). -/
def leU16 (data : List ℕ) (i : ℕ) : ℕ := byteAt data i + byteAt data (i + 1) * 256

/-- Little-endian signed 16-bit word at offset `i` (`struct.unpack("<h", data[i:i+2])`). -/
def leS16 (data : List ℕ) (i : ℕ) : ℤ :=
  let u := leU16 data i
  if u ≥ 32768 then (u : ℤ) - 65536 else (u : ℤ)

/-! ### Advertisement input (bleak callback contract) -/

/-- Model of `bleak.backends.device.BLEDevice`: only the address is read. -/
structure BLEDevice where
  address : String
deriving DecidableEq, Repr

/-- Model of `bleak.backends.scanner.AdvertisementData`: manufacturer
data keyed by 16-bit company id, service data keyed by UUID string. -/
structure AdvertisementData where
  manufacturer_data : List (ℕ × List ℕ) := []
  service_data : List (String × List ℕ) := []
  rssi : ℤ := 0
deriving DecidableEq, Repr

/-! ### ble/parsers/ruuvi.py -/

namespace RuuviParser

def RUUVI_MANUFACTURER_ID : ℕ := 0x0499

/-- Model of `RuuviParser.can_parse`. -/
def can_parse (adv : AdvertisementData) : Bool :=
  match adv.manufacturer_data.lookup RUUVI_MANUFACTURER_ID with
  | none => false
  | some data =>
    if data.length < 1 then false
    else byteAt data 0 == 3 || byteAt data 0 == 5

/-- Model of `RuuviParser._parse_df3` (Ruuvi Data Format 3, RAWv1).
`now` is the wall-clock time the source reads with `datetime.now()`. -/
def parse_df3 (mac : String) (now : ℚ) (data : List ℕ) : Option SensorReading :=
  if data.length < 14 then none
  else
    let humidity : ℚ := (byteAt data 1 : ℚ) * (5 / 10)
    let temp_int : ℤ :=
      if byteAt data 2 > 127 then (byteAt data 2 : ℤ) - 256 else (byteAt data 2 : ℤ)
    let temp_frac : ℚ := (byteAt data 3 : ℚ) / 100
    let temperature : ℚ :=
      (temp_int : ℚ) + (if temp_int ≥ 0 then temp_frac else -temp_frac)
    let pressure : ℚ := ((beU16 data 4 : ℚ) + 50000) / 100
    let battery_voltage : ℚ := (beU16 data 12 : ℚ) / 1000
    some (SensorReading.make mac now temperature (some humidity)
      (some battery_voltage) none (some pressure) none)

/-- Model of `RuuviParser._parse_df5` (Ruuvi Data Format 5, RAWv2). -/
def parse_df5 (mac : String) (now : ℚ) (data : List ℕ) : Option SensorReading :=
  if data.length < 18 then none
  else
    let temp_raw : ℤ := beS16 data 1
    if temp_raw = -32768 then none
    else
      let temperature : ℚ := (temp_raw : ℚ) * (5 / 1000)
      let humidity_raw : ℕ := beU16 data 3
      let humidity : Option ℚ :=
        if humidity_raw = 65535 then none
        else some ((humidity_raw : ℚ) * (25 / 10000))
      let pressure_raw : ℕ := beU16 data 5
      let pressure : Option ℚ :=
        if pressure_raw = 65535 then none
        else some (((pressure_raw : ℚ) + 50000) / 100)
      let voltage_raw : ℕ := beU16 data 13 >>> 5
      let battery_voltage : Option ℚ :=
        if voltage_raw = 2047 then none
        else some (((voltage_raw : ℚ) + 1600) / 1000)
      some (SensorReading.make mac now temperature humidity
        battery_voltage none pressure none)

/-- Model of `RuuviParser.parse`. -/
def parse (device : BLEDevice) (adv : AdvertisementData) (now : ℚ) :
    Option SensorReading :=
  if ¬ can_parse adv then none
  else
    match adv.manufacturer_data.lookup RUUVI_MANUFACTURER_ID with
    | none => none
    | some data =>
      if byteAt data 0 = 3 then parse_df3 device.address now data
      else if byteAt data 0 = 5 then parse_df5 device.address now data
      else none

end RuuviParser

/-! ### ble/parsers/xiaomi.py -/

namespace XiaomiParser

def ATC_SERVICE_UUID : String := "0000181a-0000-1000-8000-00805f9b34fb"

/-- Model of `XiaomiParser.can_parse`: the ATC/PVVX service UUID must
be present and the payload length must be 13 (ATC) or 15 to 17 (PVVX). -/
def can_parse (adv : AdvertisementData) : Bool :=
  match adv.service_data.lookup ATC_SERVICE_UUID with
  | none => false
  | some data =>
    data.length == 13 || data.length == 15 || data.length == 16 || data.length == 17

/-- Model of `XiaomiParser._parse_atc` (ATC firmware, 13 bytes). -/
def parse_atc (mac : String) (now : ℚ) (data : List ℕ) : Option SensorReading :=
  if data.length < 13 then none
  else
    let temperature : ℚ := (beS16 data 6 : ℚ) / 10
    let humidity : ℚ := (byteAt data 8 : ℚ)
    let battery_percent : ℕ := byteAt data 9
    let battery_voltage : ℚ := (beU16 data 10 : ℚ) / 1000
    some (SensorReading.make mac now temperature (some humidity)
      (some battery_voltage) (some battery_percent) none none)

/-- Model of `XiaomiParser._parse_pvvx` (PVVX firmware, 15 to 17 bytes). -/
def parse_pvvx (mac : String) (now : ℚ) (data : List ℕ) : Option SensorReading :=
  if data.length < 15 then none
  else
    let temperature : ℚ := (leS16 data 6 : ℚ) / 100
    let humidity : ℚ := (leU16 data 8 : ℚ) / 100
    let battery_voltage : ℚ := (leU16 data 10 : ℚ) / 1000
    let battery_percent : ℕ := byteAt data 12
    some (SensorReading.make mac now temperature (some humidity)
      (some battery_voltage) (some battery_percent) none none)

/-- Model of `XiaomiParser.parse`. -/
def parse (device : BLEDevice) (adv : AdvertisementData) (now : ℚ) :
    Option SensorReading :=
  if ¬ can_parse adv then none
  else
    match adv.service_data.lookup ATC_SERVICE_UUID with
    | none => none
    | some data =>
      if data.length = 13 then parse_atc device.address now data
      else if data.length ≥ 15 then parse_pvvx device.address now data
      else none

end XiaomiParser

/-! ### ble/sensor_store.py

The two dictionaries of `SensorStore` become total functions with
defaults `none` / `[]`; `deque(maxlen=2000)` becomes a list whose
append drops from the front on overflow.  The wall clock read by
`datetime.now()` inside `add_reading`, `get_history` and
`get_reading_age` is passed explicitly as `now` (seconds). -/

def HISTORY_DURATION : ℚ := 24 * 3600

def MAX_READINGS_PER_SENSOR : ℕ := 2000

/-- State of `sensor_store.SensorStore` (the `_latest` and `_history`
dictionaries; the lock serializes operations, so they are modelled as
atomic state transitions). -/
structure SensorStore where
  latest : String → Option SensorReading
  history : String → List SensorReading

def SensorStore.empty : SensorStore :=
  { latest := fun _ => none, history := fun _ => [] }

/-- Appending to a `deque(maxlen=MAX_READINGS_PER_SENSOR)`: when full,
the oldest (leftmost) entries are discarded to make room. -/
def dequeAppend (l : List SensorReading) (r : SensorReading) : List SensorReading :=
  if l.length ≥ MAX_READINGS_PER_SENSOR then
    (l.drop (l.length + 1 - MAX_READINGS_PER_SENSOR)) ++ [r]
  else l ++ [r]

/-- Model of `SensorStore._cleanup_old_readings`: pop from the left
while the head is older than `now - HISTORY_DURATION`. -/
def cleanupOldReadings (now : ℚ) (l : List SensorReading) : List SensorReading :=
  l.dropWhile (fun r => r.timestamp < now - HISTORY_DURATION)

/-- Model of `SensorStore.add_reading`: key by the uppercased address,
update the latest map, append to the history deque, then prune old
entries. -/
def SensorStore.add_reading (st : SensorStore) (now : ℚ) (reading : SensorReading) :
    SensorStore :=
  { latest := fun k => if k = pyUpper reading.mac then some reading else st.latest k,
    history := fun k =>
      if k = pyUpper reading.mac then
        cleanupOldReadings now (dequeAppend (st.history k) reading)
      else st.history k }

/-- Model of `SensorStore.get_latest`. -/
def SensorStore.get_latest (st : SensorStore) (mac : String) : Option SensorReading :=
  st.latest (pyUpper mac)

/-- Model of `SensorStore.get_history` (`hours` defaults to 24 in the
source; it is passed explicitly here, as is the wall clock `now`). -/
def SensorStore.get_history (st : SensorStore) (mac : String) (hours : ℚ) (now : ℚ) :
    List SensorReading :=
  let cutoff := now - hours * 3600
  (st.history (pyUpper mac)).filter (fun r => cutoff ≤ r.timestamp)

/-- Model of `SensorStore.get_reading_age`. -/
def SensorStore.get_reading_age (st : SensorStore) (mac : String) (now : ℚ) :
    Option ℚ :=
  match st.get_latest mac with
  | some r => some (now - r.timestamp)
  | none => none

/-- Replay of a sequence of `add_reading` calls, each with the wall
clock time at which it ran. -/
def SensorStore.run_adds (st : SensorStore) (ops : List (ℚ × SensorReading)) :
    SensorStore :=
  ops.foldl (fun s p => s.add_reading p.1 p.2) st

/-- The readings of an operation sequence that are keyed under `k`
(the source keys each reading by its uppercased address). -/
def insertedFor (k : String) (ops : List (ℚ × SensorReading)) : List SensorReading :=
  (ops.filter (fun p => pyUpper p.2.mac = k)).map (fun p => p.2)

/-! ### models.AppConfig (the sensor-registry part used by the scanner) -/

/-- Model of `AppConfig.get_sensor_by_mac`: first configured sensor
whose (already uppercased) address equals the uppercased query. -/
def getSensorByMac (sensors : List SensorConfig) (mac : String) : Option SensorConfig :=
  sensors.find? (fun s => s.mac = pyUpper mac)

/-- Model of `AppConfig.add_sensor`: append a new `SensorConfig`
unless one with the same address already exists. -/
def addSensor (sensors : List SensorConfig) (mac name : String) (type : SensorType) :
    List SensorConfig :=
  match getSensorByMac sensors mac with
  | some _ => sensors
  | none => sensors ++ [SensorConfig.make (pyUpper mac) name type]

/-! ### ble/scanner.py (the `_detection_callback` routing logic)

The callback mutates `self._config.sensors` and `self._discovered_macs`
and writes into the store; those become an explicit `ScannerState`.
The probing order is the `self._parsers` list: Ruuvi first, then
Xiaomi.  `CbOut.probed` records whether the discovery loop ran (i.e.
the advertisement was tried against the decoder set), `registered`
whether a new device record was added this call. -/

structure ScannerState where
  sensors : List SensorConfig
  discovered : List String
  store : SensorStore

/-- Observable outcome of one `_detection_callback` invocation. -/
structure CbOut where
  probed : Bool
  registered : Bool
  reading : Option SensorReading
deriving Repr

instance : Inhabited CbOut := ⟨{ probed := false, registered := false, reading := none }⟩

/-- Dispatch a parse through the decoder a configured kind selects
(the fast path of `_detection_callback`). -/
def parseByType (type : SensorType) (device : BLEDevice) (adv : AdvertisementData)
    (now : ℚ) : Option SensorReading :=
  match type with
  | .ruuvi => RuuviParser.parse device adv now
  | .xiaomi => XiaomiParser.parse device adv now

/-- Generated name for an auto-registered device:
`f"{sensor_type.value}_{mac.replace(':', '')[-6:]}"`. -/
def generatedName (type : SensorType) (mac : String) : String :=
  let bare := (mac.replace ":" "")
  type.value ++ "_" ++ (bare.drop (bare.length - 6))

/-- Store a successfully parsed reading: the source sets `reading.rssi`
from the advertisement and calls `store.add_reading`. -/
def storeReading (st : ScannerState) (r : SensorReading) (adv : AdvertisementData)
    (now : ℚ) : ScannerState × Option SensorReading :=
  ({ st with store := st.store.add_reading now { r with rssi := some adv.rssi } },
   some { r with rssi := some adv.rssi })

/-- The fast path of `_detection_callback`: a device with a configured
kind is parsed by that kind's decoder and stored on success. -/
def fastPath (st : ScannerState) (cfg : SensorConfig) (device : BLEDevice)
    (adv : AdvertisementData) (now : ℚ) : ScannerState × CbOut :=
  match parseByType cfg.type device adv now with
  | some r =>
    ((storeReading st r adv now).1,
     { probed := false, registered := false, reading := (storeReading st r adv now).2 })
  | none => (st, { probed := false, registered := false, reading := none })

/-- A discovery-probe hit for kind `ty`: record the address as
discovered, auto-register the device under its generated name, then
attempt the decode (`p`) and store on success.  Mirrors the body of
the `for parser, sensor_type in self._parsers` loop after a
`can_parse` success. -/
def registerState (st : ScannerState) (mac : String) (ty : SensorType) : ScannerState :=
  { st with
    discovered := mac :: st.discovered
    sensors := addSensor st.sensors mac (generatedName ty mac) ty }

def registerHit (st : ScannerState) (mac : String) (ty : SensorType)
    (p : Option SensorReading) (adv : AdvertisementData) (now : ℚ) :
    ScannerState × CbOut :=
  match p with
  | some r =>
    ((storeReading (registerState st mac ty) r adv now).1,
     { probed := true, registered := true,
       reading := (storeReading (registerState st mac ty) r adv now).2 })
  | none =>
    (registerState st mac ty,
     { probed := true, registered := true, reading := none })

/-- Discovery probing: try Ruuvi then Xiaomi `can_parse`; the first
hit registers the device; no hit leaves the state unchanged. -/
def probeAndRegister (st : ScannerState) (mac : String) (device : BLEDevice)
    (adv : AdvertisementData) (now : ℚ) : ScannerState × CbOut :=
  if RuuviParser.can_parse adv then
    registerHit st mac .ruuvi (RuuviParser.parse device adv now) adv now
  else if XiaomiParser.can_parse adv then
    registerHit st mac .xiaomi (XiaomiParser.parse device adv now) adv now
  else
    (st, { probed := true, registered := false, reading := none })

/-- Model of `BleScanner._detection_callback`. -/
def detectionCallback (st : ScannerState) (device : BLEDevice)
    (adv : AdvertisementData) (now : ℚ) : ScannerState × CbOut :=
  match getSensorByMac st.sensors (pyUpper device.address) with
  | some cfg => fastPath st cfg device adv now
  | none =>
    if pyUpper device.address ∈ st.discovered then
      (st, { probed := false, registered := false, reading := none })
    else
      probeAndRegister st (pyUpper device.address) device adv now

/-- One advertisement delivery event. -/
structure ScanEvent where
  device : BLEDevice
  adv : AdvertisementData
  now : ℚ

instance : Inhabited ScanEvent := ⟨{ device := ⟨""⟩, adv := {}, now := 0 }⟩

/-- Replay a sequence of advertisement events through the callback,
collecting each call's observable outcome. -/
def runScanner (st : ScannerState) : List ScanEvent → ScannerState × List CbOut
  | [] => (st, [])
  | e :: es =>
    let (st1, out) := detectionCallback st e.device e.adv e.now
    let (st2, outs) := runScanner st1 es
    (st2, out :: outs)

/-! ### remote.py (the RemotePoller cache and its polling loops)

HTTP exchanges are driven by an explicit environment: each iteration
is given the outcome of the requests it would issue.  An outcome is a
transport error (the caught `aiohttp`/`OSError` exceptions), or an
HTTP status together with an optional parsed JSON body (`none` models
`resp.json()` raising). -/

/-- Model of the `remote.RemoteSensor` dataclass. -/
structure RemoteSensor where
  name : String
  mac : String
  type : String
  order : ℤ
  temperature : Option ℚ := none
  humidity : Option ℚ := none
  battery_percent : Option ℤ := none
  battery_voltage : Option ℚ := none
  timestamp : Option String := none
  age_seconds : Option ℤ := none
deriving DecidableEq, Repr

/-- Model of the `remote.RemoteWeather` dataclass. -/
structure RemoteWeather where
  temperature : ℚ
  humidity : Option ℚ := none
  pressure : Option ℚ := none
  wind_speed : Option ℚ := none
  wind_direction : Option ℚ := none
  precipitation : Option ℚ := none
  cloud_cover : Option ℚ := none
  symbol_code : Option String := none
  location : Option String := none
deriving DecidableEq, Repr

/-- Model of the `remote.RemoteSiteData` dataclass. -/
structure RemoteSiteData where
  site_name : String
  sensors : List RemoteSensor := []
  weather : Option RemoteWeather := none
  last_fetch : Option ℚ := none
  last_error : Option String := none
  online : Bool := false
deriving DecidableEq, Repr

/-- One sensor object of a status JSON body; every field is optional
(`dict.get`). -/
structure SensorJson where
  name : Option String := none
  mac : Option String := none
  type : Option String := none
  order : Option ℤ := none
  temperature : Option ℚ := none
  humidity : Option ℚ := none
  battery_percent : Option ℤ := none
  battery_voltage : Option ℚ := none
  timestamp : Option String := none
  age_seconds : Option ℤ := none
deriving DecidableEq, Repr

/-- The weather object of a status JSON body.  `temperature` is read
with `w["temperature"]` in the source, so its absence raises. -/
structure WeatherJson where
  temperature : Option ℚ := none
  humidity : Option ℚ := none
  pressure : Option ℚ := none
  wind_speed : Option ℚ := none
  wind_direction : Option ℚ := none
  precipitation : Option ℚ := none
  cloud_cover : Option ℚ := none
  symbol_code : Option String := none
  location : Option String := none
deriving DecidableEq, Repr

/-- A parsed status JSON body. -/
structure StatusJson where
  site_name : Option String := none
  sensors : List SensorJson := []
  weather : Option WeatherJson := none
deriving DecidableEq, Repr

/-- Model of the per-sensor part of `remote._parse_site_data`
(`s.get(...)` with the source's defaults). -/
def parseRemoteSensor (s : SensorJson) : RemoteSensor :=
  { name := s.name.getD "?", mac := s.mac.getD "", type := s.type.getD "",
    order := s.order.getD 0, temperature := s.temperature,
    humidity := s.humidity, battery_percent := s.battery_percent,
    battery_voltage := s.battery_voltage, timestamp := s.timestamp,
    age_seconds := s.age_seconds }

/-- Model of `remote._parse_site_data`.  Returns `none` when the body
has a weather object without a `temperature` key (the `KeyError` the
caller catches); `data.get("site_name") or site_name` falls back on a
missing or empty name.  `now` is the `datetime.now()` stored in
`last_fetch`. -/
def parseSiteData (j : StatusJson) (siteName : String) (now : ℚ) :
    Option RemoteSiteData :=
  let sensors := j.sensors.map parseRemoteSensor
  let name :=
    match j.site_name with
    | some s => if s = "" then siteName else s
    | none => siteName
  match j.weather with
  | none =>
    some { site_name := name, sensors, weather := none,
           last_fetch := some now, online := true }
  | some w =>
    match w.temperature with
    | none => none
    | some t =>
      let rw : RemoteWeather :=
        { temperature := t, humidity := w.humidity, pressure := w.pressure,
          wind_speed := w.wind_speed, wind_direction := w.wind_direction,
          precipitation := w.precipitation, cloud_cover := w.cloud_cover,
          symbol_code := w.symbol_code, location := w.location }
      some { site_name := name, sensors, weather := some rw,
             last_fetch := some now, online := true }

inductive HttpMethod where
  | get
  | post
deriving DecidableEq, Repr

/-- An HTTP request issued by the poller, as observed by the peer. -/
structure Request where
  method : HttpMethod
  path : String
deriving DecidableEq, Repr

def statusRequest : Request := { method := .get, path := "/api/v1/status" }

def syncRequest : Request := { method := .post, path := "/api/v1/sync" }

/-- Outcome of one HTTP call, supplied by the environment. -/
inductive FetchResp where
  | netError (msg : String)
  | http (status : ℕ) (body : Option StatusJson)
deriving DecidableEq, Repr

/-- Model of `RemotePoller._fetch_site` acting on the site's cache
entry: the new entry plus the requests issued. -/
def fetchSite (entry : RemoteSiteData) (siteName : String) (resp : FetchResp)
    (now : ℚ) : RemoteSiteData × List Request :=
  match resp with
  | .netError msg =>
    ({ entry with online := false, last_error := some msg }, [statusRequest])
  | .http status body =>
    if status ≠ 200 then
      ({ entry with
          online := false
          last_error := some ("HTTP " ++ toString status) }, [statusRequest])
    else
      match body with
      | none =>
        ({ entry with online := false, last_error := some "invalid json" },
         [statusRequest])
      | some j =>
        match parseSiteData j siteName now with
        | none =>
          ({ entry with online := false, last_error := some "KeyError" },
           [statusRequest])
        | some d => (d, [statusRequest])

/-- Environment of one bidirectional sync iteration: the outcome of
the `POST /sync`, and the outcome of the fallback `GET /status` in
case the POST is answered 404. -/
structure PeerEnv where
  postResp : FetchResp
  getResp : FetchResp
deriving DecidableEq, Repr

instance : Inhabited PeerEnv := ⟨⟨.netError "", .netError ""⟩⟩

/-- Model of `RemotePoller._sync_peer`: POST the local snapshot; on
404 fall back to `_fetch_site` within this call; otherwise handle the
response like `_fetch_site` does. -/
def syncPeer (entry : RemoteSiteData) (siteName : String) (env : PeerEnv)
    (now : ℚ) : RemoteSiteData × List Request :=
  match env.postResp with
  | .netError msg =>
    ({ entry with online := false, last_error := some msg }, [syncRequest])
  | .http status body =>
    if status = 404 then
      let (e2, reqs) := fetchSite entry siteName env.getResp now
      (e2, syncRequest :: reqs)
    else if status ≠ 200 then
      ({ entry with
          online := false
          last_error := some ("HTTP " ++ toString status) }, [syncRequest])
    else
      match body with
      | none =>
        ({ entry with online := false, last_error := some "invalid json" },
         [syncRequest])
      | some j =>
        match parseSiteData j siteName now with
        | none =>
          ({ entry with online := false, last_error := some "KeyError" },
           [syncRequest])
        | some d => (d, [syncRequest])

/-- Model of `RemotePoller._poll_loop` with `sync=True`, run for as
many iterations as the environment supplies, returning the per
iteration request lists (the loop body is `_sync_peer` every time; the
`sync` flag never changes during the run). -/
def peerPollIters (entry : RemoteSiteData) (siteName : String) (now : ℚ) :
    List PeerEnv → List (List Request)
  | [] => []
  | env :: envs =>
    let (e2, reqs) := syncPeer entry siteName env now
    reqs :: peerPollIters e2 siteName now envs

/-- A response the poller treats as a failed poll: transport error,
non-200 status, unparseable body, or a body `_parse_site_data` raises
on. -/
def fetchFails (resp : FetchResp) (siteName : String) (now : ℚ) : Prop :=
  match resp with
  | .netError _ => True
  | .http status body =>
    status ≠ 200 ∨ body = none ∨ ∃ j, body = some j ∧ parseSiteData j siteName now = none

/-- A peer-sync environment whose iteration fails: either the POST
fails outright (non-404), or the POST is answered 404 and the fallback
GET fails. -/
def syncFails (env : PeerEnv) (siteName : String) (now : ℚ) : Prop :=
  match env.postResp with
  | .netError _ => True
  | .http status body =>
    if status = 404 then fetchFails env.getResp siteName now
    else status ≠ 200 ∨ body = none ∨
      ∃ j, body = some j ∧ parseSiteData j siteName now = none

/-! ### aggregator.py (`Aggregator._aggregate`) -/

/-- One `save_aggregated_reading` call handed to the storage
collaborator. -/
structure AggWrite where
  mac : String
  timestamp : ℚ
  temp_avg : ℚ
  temp_min : ℚ
  temp_max : ℚ
  humidity_avg : Option ℚ
  pressure_avg : Option ℚ
  battery_voltage : Option ℚ
  battery_percent : Option ℕ
  sample_count : ℕ
deriving DecidableEq, Repr

def AGGREGATION_INTERVAL : ℚ := 300

/-- Model of the source's `now.replace(minute=(now.minute // 5) * 5,
second=0, microsecond=0)`: with time as seconds from a midnight-aligned
epoch, flooring the minute to the 5-minute grid and zeroing the
seconds is flooring to a multiple of 300 seconds. -/
def floor5min (t : ℚ) : ℚ := 300 * (⌊t / 300⌋ : ℤ)

/-- Model of one loop body of `Aggregator._aggregate` for a configured
sensor: filter the last hour's history to the just-elapsed window, and
produce the bucket write, or nothing when no reading qualifies. -/
def aggregateSensor (mac : String) (now : ℚ) (readings : List SensorReading) :
    Option AggWrite :=
  let cutoff := now - AGGREGATION_INTERVAL
  let recent := readings.filter (fun r => cutoff ≤ r.timestamp)
  match recent with
  | [] => none
  | r0 :: rest =>
    let temps := (r0 :: rest).map (fun r => r.temperature)
    let temp_avg := temps.sum / temps.length
    let temp_min := (rest.map (fun r => r.temperature)).foldl min r0.temperature
    let temp_max := (rest.map (fun r => r.temperature)).foldl max r0.temperature
    let hums := (r0 :: rest).filterMap (fun r => r.humidity)
    let humidity_avg := if hums.isEmpty then none else some (hums.sum / hums.length)
    let press := (r0 :: rest).filterMap (fun r => r.pressure)
    let pressure_avg := if press.isEmpty then none else some (press.sum / press.length)
    let latest := rest.getLastD r0
    some { mac, timestamp := floor5min now, temp_avg, temp_min, temp_max,
           humidity_avg, pressure_avg,
           battery_voltage := latest.battery_voltage,
           battery_percent := latest.battery_percent,
           sample_count := (r0 :: rest).length }

/-- Model of `Aggregator._aggregate`: one pass over the configured
sensors, collecting the database writes it performs. -/
def aggregate (now : ℚ) (sensors : List SensorConfig) (st : SensorStore) :
    List AggWrite :=
  sensors.filterMap (fun c => aggregateSensor c.mac now (st.get_history c.mac 1 now))

/-! ## Claims -/

/-- The Ruuvi DF5 payload named by the spec,
`05 00C8 8000 C27C 0000 0000 FFC4 00 0200` — 16 bytes once the spaces
are removed. -/
def specDf5Payload : List ℕ :=
  [0x05, 0x00, 0xC8, 0x80, 0x00, 0xC2, 0x7C, 0x00,
   0x00, 0x00, 0x00, 0xFF, 0xC4, 0x00, 0x02, 0x00]

/-- The spec payload delivered as the manufacturer-data value under the
Ruuvi manufacturer id. -/
def specDf5Adv : AdvertisementData :=
  { manufacturer_data := [(RuuviParser.RUUVI_MANUFACTURER_ID, specDf5Payload)] }

/-- The spec payload padded with two zero bytes to the 18-byte DF5
minimum, delivered the same way. -/
def paddedDf5Adv : AdvertisementData :=
  { manufacturer_data :=
      [(RuuviParser.RUUVI_MANUFACTURER_ID, specDf5Payload ++ [0x00, 0x00])] }

/-- C2, counterexample: the spec's DF5 payload is 16 bytes, so
`_parse_df5` rejects it (`len(data) < 18`); decoding it does not
return a Reading at all, let alone one with temperature 2.00 °C. -/
theorem c2_counterexample :
    specDf5Payload.length = 16
    ∧ ¬ ∃ r : SensorReading,
        RuuviParser.parse ⟨"AA:BB:CC:DD:EE:FF"⟩ specDf5Adv 0 = some r
        ∧ r.temperature = 2 := by
  refine ⟨by decide, ?_⟩
  have h : RuuviParser.parse ⟨"AA:BB:CC:DD:EE:FF"⟩ specDf5Adv 0 = none := by decide
  rintro ⟨r, hr, -⟩
  rw [h] at hr
  cases hr

/-- C2 (amended): the 16-byte spec payload is rejected outright
(DF5 frames must be at least 18 bytes), and the 18-byte zero-padded
extension decodes to temperature 0x00C8 × 0.005 = 1.00 °C (not 2.00),
humidity 0x8000 × 0.0025 = 81.92 %, pressure (0xC27C + 50000) / 100 =
997.88 hPa and battery (0x0002 >> 5 + 1600) / 1000 = 1.6 V, per the
DF5 field formulas. -/
theorem c2_df5_spec_payload :
    RuuviParser.parse ⟨"AA:BB:CC:DD:EE:FF"⟩ specDf5Adv 0 = none
    ∧ RuuviParser.parse ⟨"AA:BB:CC:DD:EE:FF"⟩ paddedDf5Adv 0 =
        some { mac := "AA:BB:CC:DD:EE:FF", timestamp := 0, temperature := 1,
               humidity := some (2048 / 25), battery_voltage := some (8 / 5),
               battery_percent := none, pressure := some (24947 / 25),
               rssi := none } := by
  constructor
  · decide
  · have h : RuuviParser.parse ⟨"AA:BB:CC:DD:EE:FF"⟩ paddedDf5Adv 0 =
        RuuviParser.parse_df5 "AA:BB:CC:DD:EE:FF" 0 (specDf5Payload ++ [0x00, 0x00]) := rfl
    rw [h, RuuviParser.parse_df5]
    have e1 : beS16 (specDf5Payload ++ [0x00, 0x00]) 1 = 200 := by decide
    have e2 : beU16 (specDf5Payload ++ [0x00, 0x00]) 3 = 32768 := by decide
    have e3 : beU16 (specDf5Payload ++ [0x00, 0x00]) 5 = 49788 := by decide
    have e4 : beU16 (specDf5Payload ++ [0x00, 0x00]) 13 >>> 5 = 0 := by decide
    have e5 : (specDf5Payload ++ [0x00, 0x00]).length = 18 := by decide
    have e6 : pyUpper "AA:BB:CC:DD:EE:FF" = "AA:BB:CC:DD:EE:FF" := by decide
    simp only [e1, e2, e3, e4, e5, SensorReading.make, e6]
    norm_num

/-- C3, counterexample: an 18-byte service-data payload under the
ATC/PVVX UUID has length at least 15, yet `can_parse` only accepts
lengths 13 and 15 to 17, so `parse` returns nothing rather than a
PVVX Reading. -/
theorem c3_counterexample :
    (List.replicate 18 (0 : ℕ)).length ≥ 15
    ∧ XiaomiParser.parse ⟨"AA:BB:CC:DD:EE:01"⟩
        { service_data := [(XiaomiParser.ATC_SERVICE_UUID, List.replicate 18 0)] }
        0 = none := by
  constructor
  · decide
  · decide

/-- C3 (amended): for every Xiaomi service-data payload under the
ATC/PVVX service UUID of length 15 to 17 bytes, decode returns a
Reading with temperature = signed little-endian bytes 6–7 / 100,
humidity = unsigned little-endian bytes 8–9 / 100, battery voltage =
unsigned little-endian bytes 10–11 / 1000 and battery percent =
byte 12 (payloads of length 18 or more are rejected by `can_parse`). -/
theorem c3_pvvx_fields (device : BLEDevice) (now : ℚ) (data : List ℕ)
    (h : data.length = 15 ∨ data.length = 16 ∨ data.length = 17) :
    XiaomiParser.parse device
      { service_data := [(XiaomiParser.ATC_SERVICE_UUID, data)] } now
    = some (SensorReading.make device.address now ((leS16 data 6 : ℚ) / 100)
        (some ((leU16 data 8 : ℚ) / 100)) (some ((leU16 data 10 : ℚ) / 1000))
        (some (byteAt data 12)) none none) := by
  have hl : ({ service_data := [(XiaomiParser.ATC_SERVICE_UUID, data)] } :
      AdvertisementData).service_data.lookup XiaomiParser.ATC_SERVICE_UUID
      = some data := by
    simp [List.lookup]
  unfold XiaomiParser.parse XiaomiParser.can_parse XiaomiParser.parse_pvvx
  rw [hl]
  rcases h with h | h | h <;>
    simp [h, XiaomiParser.parse_pvvx]

/-- Witness for the amended C3 theorem at a concrete 15-byte payload. -/
theorem c3_pvvx_fields_witness :
    ((List.replicate 15 (7 : ℕ)).length = 15 ∨ (List.replicate 15 (7 : ℕ)).length = 16
      ∨ (List.replicate 15 (7 : ℕ)).length = 17)
    ∧ XiaomiParser.parse ⟨"aa:bb:cc:dd:ee:02"⟩
        { service_data := [(XiaomiParser.ATC_SERVICE_UUID, List.replicate 15 (7 : ℕ))] } 0
      = some (SensorReading.make "aa:bb:cc:dd:ee:02" 0
          ((leS16 (List.replicate 15 (7 : ℕ)) 6 : ℚ) / 100)
          (some ((leU16 (List.replicate 15 (7 : ℕ)) 8 : ℚ) / 100))
          (some ((leU16 (List.replicate 15 (7 : ℕ)) 10 : ℚ) / 1000))
          (some (byteAt (List.replicate 15 (7 : ℕ)) 12)) none none) :=
  ⟨Or.inl (by decide),
   c3_pvvx_fields ⟨"aa:bb:cc:dd:ee:02"⟩ 0 (List.replicate 15 (7 : ℕ))
     (Or.inl (by decide))⟩

/-- C5: for every 18-byte-or-longer Ruuvi DF5 payload, a temperature
raw of −32768 rejects the whole frame; otherwise a Reading is
returned in which humidity is absent exactly when the raw at bytes
3–4 is 65535, pressure is absent exactly when the raw at bytes 5–6 is
65535, and battery voltage is absent exactly when the top 11 bits of
the word at bytes 13–14 are 2047 — absence, never a coerced zero. -/
theorem c5_df5_sentinels (mac : String) (now : ℚ) (data : List ℕ)
    (h18 : 18 ≤ data.length) :
    (beS16 data 1 = -32768 → RuuviParser.parse_df5 mac now data = none)
    ∧ (beS16 data 1 ≠ -32768 →
        ∃ r, RuuviParser.parse_df5 mac now data = some r
          ∧ (r.humidity = none ↔ beU16 data 3 = 65535)
          ∧ (r.pressure = none ↔ beU16 data 5 = 65535)
          ∧ (r.battery_voltage = none ↔ beU16 data 13 >>> 5 = 2047)
          ∧ r.temperature = (beS16 data 1 : ℚ) * (5 / 1000)) := by
  have hlen : ¬ data.length < 18 := by omega
  constructor
  · intro hs
    unfold RuuviParser.parse_df5
    rw [if_neg hlen, if_pos hs]
  · intro hs
    unfold RuuviParser.parse_df5
    rw [if_neg hlen, if_neg hs]
    refine ⟨_, rfl, ?_, ?_, ?_, ?_⟩
    · simp only [SensorReading.make]
      split_ifs with h <;> simp [h]
    · simp only [SensorReading.make]
      split_ifs with h <;> simp [h]
    · simp only [SensorReading.make]
      split_ifs with h <;> simp [h]
    · simp [SensorReading.make]

/-- Witness for the C5 theorem at the padded 18-byte DF5 payload. -/
theorem c5_df5_sentinels_witness :
    18 ≤ (specDf5Payload ++ [0x00, 0x00]).length
    ∧ ((beS16 (specDf5Payload ++ [0x00, 0x00]) 1 = -32768 →
          RuuviParser.parse_df5 "AA" 0 (specDf5Payload ++ [0x00, 0x00]) = none)
       ∧ (beS16 (specDf5Payload ++ [0x00, 0x00]) 1 ≠ -32768 →
          ∃ r, RuuviParser.parse_df5 "AA" 0 (specDf5Payload ++ [0x00, 0x00]) = some r
            ∧ (r.humidity = none ↔ beU16 (specDf5Payload ++ [0x00, 0x00]) 3 = 65535)
            ∧ (r.pressure = none ↔ beU16 (specDf5Payload ++ [0x00, 0x00]) 5 = 65535)
            ∧ (r.battery_voltage = none ↔
                beU16 (specDf5Payload ++ [0x00, 0x00]) 13 >>> 5 = 2047)
            ∧ r.temperature = (beS16 (specDf5Payload ++ [0x00, 0x00]) 1 : ℚ) * (5 / 1000))) :=
  ⟨by decide, c5_df5_sentinels "AA" 0 (specDf5Payload ++ [0x00, 0x00]) (by decide)⟩

/-- C8: every 14-byte-or-longer Ruuvi DF3 payload decodes to a Reading
whose temperature is the signed 8-bit integer part at byte 2 plus the
fraction byte3/100 when the integer part is nonnegative and minus the
fraction when it is negative, with pressure = (big-endian bytes 4–5 +
50000) / 100 and battery voltage = big-endian bytes 12–13 / 1000. -/
theorem c8_df3_fields (mac : String) (now : ℚ) (data : List ℕ)
    (h : 14 ≤ data.length) :
    ∃ r, RuuviParser.parse_df3 mac now data = some r
      ∧ r.temperature =
          (let ti : ℤ :=
            if byteAt data 2 > 127 then (byteAt data 2 : ℤ) - 256 else (byteAt data 2 : ℤ)
           (ti : ℚ) + (if ti ≥ 0 then (byteAt data 3 : ℚ) / 100 else -((byteAt data 3 : ℚ) / 100)))
      ∧ r.pressure = some (((beU16 data 4 : ℚ) + 50000) / 100)
      ∧ r.battery_voltage = some ((beU16 data 12 : ℚ) / 1000) := by
  have hlen : ¬ data.length < 14 := by omega
  unfold RuuviParser.parse_df3
  rw [if_neg hlen]
  exact ⟨_, rfl, rfl, rfl, rfl⟩

theorem suffix_append_same {α : Type} {l₁ l₂ t : List α} (h : l₁ <:+ l₂) :
    l₁ ++ t <:+ l₂ ++ t := by
  obtain ⟨s, hs⟩ := h
  exact ⟨s, by rw [← List.append_assoc, hs]⟩

/-- A deque append never exceeds the deque's capacity. -/
theorem dequeAppend_length_le (l : List SensorReading) (r : SensorReading) :
    (dequeAppend l r).length ≤ MAX_READINGS_PER_SENSOR := by
  unfold dequeAppend
  split_ifs with h
  · simp only [List.length_append, List.length_drop, List.length_cons, List.length_nil]
    unfold MAX_READINGS_PER_SENSOR at *
    omega
  · simp only [List.length_append, List.length_cons, List.length_nil]
    unfold MAX_READINGS_PER_SENSOR at *
    omega

/-- A deque append keeps a suffix of the appended sequence: overflow
only ever discards from the front. -/
theorem dequeAppend_suffix (l : List SensorReading) (r : SensorReading) :
    dequeAppend l r <:+ l ++ [r] := by
  unfold dequeAppend
  split_ifs with h
  · exact suffix_append_same (List.drop_suffix _ _)
  · exact List.suffix_rfl

theorem add_reading_history_suffix (st : SensorStore) (now : ℚ) (r : SensorReading)
    (k : String) :
    (st.add_reading now r).history k <:+
      st.history k ++ (if pyUpper r.mac = k then [r] else []) := by
  unfold SensorStore.add_reading
  dsimp only
  by_cases hk : k = pyUpper r.mac
  · rw [if_pos hk, if_pos hk.symm]
    exact (List.dropWhile_suffix _).trans (dequeAppend_suffix _ _)
  · rw [if_neg hk, if_neg (fun hh => hk hh.symm)]
    simp

/-- After any sequence of adds, each history buffer is a suffix of the
initial buffer followed by the readings inserted under its key. -/
theorem run_adds_history_suffix (ops : List (ℚ × SensorReading)) :
    ∀ (st : SensorStore) (k : String),
      (SensorStore.run_adds st ops).history k <:+ st.history k ++ insertedFor k ops := by
  induction ops with
  | nil =>
    intro st k
    simp [SensorStore.run_adds, insertedFor]
  | cons op ops ih =>
    intro st k
    have h1 := ih (st.add_reading op.1 op.2) k
    have h2 := add_reading_history_suffix st op.1 op.2 k
    have h3 : SensorStore.run_adds st (op :: ops) =
        SensorStore.run_adds (st.add_reading op.1 op.2) ops := rfl
    rw [h3]
    refine h1.trans ?_
    have h4 : insertedFor k (op :: ops) =
        (if pyUpper op.2.mac = k then [op.2] else []) ++ insertedFor k ops := by
      unfold insertedFor
      by_cases hm : pyUpper op.2.mac = k
      · simp [hm, List.filter]
      · simp [List.filter, hm]
    rw [h4, ← List.append_assoc]
    exact suffix_append_same h2

/-- After any sequence of adds from a bounded store, every history
buffer stays within capacity. -/
theorem run_adds_history_length (ops : List (ℚ × SensorReading)) :
    ∀ (st : SensorStore),
      (∀ k, (st.history k).length ≤ MAX_READINGS_PER_SENSOR) →
      ∀ k, ((SensorStore.run_adds st ops).history k).length ≤ MAX_READINGS_PER_SENSOR := by
  induction ops with
  | nil => intro st h k; exact h k
  | cons op ops ih =>
    intro st h k
    refine ih (st.add_reading op.1 op.2) ?_ k
    intro k2
    unfold SensorStore.add_reading
    dsimp only
    split_ifs with hk
    · calc (cleanupOldReadings op.1 (dequeAppend (st.history k2) op.2)).length
          ≤ (dequeAppend (st.history k2) op.2).length :=
            (List.dropWhile_suffix _).sublist.length_le
        _ ≤ MAX_READINGS_PER_SENSOR := dequeAppend_length_le _ _
    · exact h k2

/-- C6: after any sequence of `add_reading` calls from an empty store,
`get_history` returns at most 2000 entries; the retained history is a
suffix of the insertion sequence for that sensor (so overflowing drops
the oldest entries), and every entry older than the 24-hour retention
window is absent from a 24-hour `get_history` result. -/
theorem c6_history_bounds (ops : List (ℚ × SensorReading)) (mac : String)
    (hours now : ℚ) :
    (((SensorStore.run_adds SensorStore.empty ops).get_history mac hours now).length
       ≤ MAX_READINGS_PER_SENSOR)
    ∧ ((SensorStore.run_adds SensorStore.empty ops).history (pyUpper mac) <:+
        insertedFor (pyUpper mac) ops)
    ∧ (∀ r ∈ (SensorStore.run_adds SensorStore.empty ops).get_history mac 24 now,
        now - 24 * 3600 ≤ r.timestamp) := by
  refine ⟨?_, ?_, ?_⟩
  · calc ((SensorStore.run_adds SensorStore.empty ops).get_history mac hours now).length
        ≤ ((SensorStore.run_adds SensorStore.empty ops).history (pyUpper mac)).length :=
          List.length_filter_le _ _
      _ ≤ MAX_READINGS_PER_SENSOR := by
          refine run_adds_history_length ops SensorStore.empty ?_ _
          intro k
          simp [SensorStore.empty, MAX_READINGS_PER_SENSOR]
  · have h := run_adds_history_suffix ops SensorStore.empty (pyUpper mac)
    simpa [SensorStore.empty] using h
  · intro r hr
    unfold SensorStore.get_history at hr
    simp only [List.mem_filter, decide_eq_true_eq] at hr
    linarith [hr.2]

/-- Witness for the C6 theorem at a concrete two-insert history. -/
theorem c6_history_bounds_witness :
    (((SensorStore.run_adds SensorStore.empty
        [(10, { mac := "aa:01", timestamp := 10, temperature := 5 }),
         (20, { mac := "AA:01", timestamp := 20, temperature := 6 })]).get_history
        "aa:01" 24 30).length ≤ MAX_READINGS_PER_SENSOR)
    ∧ ((SensorStore.run_adds SensorStore.empty
        [(10, { mac := "aa:01", timestamp := 10, temperature := 5 }),
         (20, { mac := "AA:01", timestamp := 20, temperature := 6 })]).history
          (pyUpper "aa:01") <:+
        insertedFor (pyUpper "aa:01")
          [(10, { mac := "aa:01", timestamp := 10, temperature := 5 }),
           (20, { mac := "AA:01", timestamp := 20, temperature := 6 })])
    ∧ (∀ r ∈ (SensorStore.run_adds SensorStore.empty
        [(10, { mac := "aa:01", timestamp := 10, temperature := 5 }),
         (20, { mac := "AA:01", timestamp := 20, temperature := 6 })]).get_history
          "aa:01" 24 30, (30 : ℚ) - 24 * 3600 ≤ r.timestamp) :=
  c6_history_bounds
    [(10, { mac := "aa:01", timestamp := 10, temperature := 5 }),
     (20, { mac := "AA:01", timestamp := 20, temperature := 6 })] "aa:01" 24 30

/-- Every key the store ever creates is its own uppercasing: readings
are keyed by `reading.mac.upper()` on insert. -/
theorem run_adds_keys_upper (ops : List (ℚ × SensorReading)) :
    ∀ (st : SensorStore),
      (∀ k, st.latest k ≠ none → k = pyUpper k) →
      (∀ k, st.history k ≠ [] → k = pyUpper k) →
      (∀ k, (SensorStore.run_adds st ops).latest k ≠ none → k = pyUpper k)
      ∧ (∀ k, (SensorStore.run_adds st ops).history k ≠ [] → k = pyUpper k) := by
  induction ops with
  | nil => intro st h1 h2; exact ⟨h1, h2⟩
  | cons op ops ih =>
    intro st h1 h2
    refine ih (st.add_reading op.1 op.2) ?_ ?_
    · intro k hk
      unfold SensorStore.add_reading at hk
      dsimp only at hk
      by_cases he : k = pyUpper op.2.mac
      · rw [he, pyUpper_idem]
      · rw [if_neg he] at hk
        exact h1 k hk
    · intro k hk
      unfold SensorStore.add_reading at hk
      dsimp only at hk
      by_cases he : k = pyUpper op.2.mac
      · rw [he, pyUpper_idem]
      · rw [if_neg he] at hk
        exact h2 k hk

/-- C10: the store normalizes addresses to uppercase throughout — a
reading's address is uppercased on construction, populated keys of the
latest map and history are uppercase after any sequence of adds, and
`get_latest` / `get_history` / `get_reading_age` agree between any
address and its canonical uppercase form. -/
theorem c10_uppercase_normalization (st : SensorStore) (m : String)
    (hours now ts temp : ℚ) (hum bv : Option ℚ) (bp : Option ℕ)
    (pres : Option ℚ) (rs : Option ℤ) (ops : List (ℚ × SensorReading)) :
    (SensorReading.make m ts temp hum bv bp pres rs).mac = pyUpper m
    ∧ st.get_latest m = st.get_latest (pyUpper m)
    ∧ st.get_history m hours now = st.get_history (pyUpper m) hours now
    ∧ st.get_reading_age m now = st.get_reading_age (pyUpper m) now
    ∧ (∀ k, (SensorStore.run_adds SensorStore.empty ops).latest k ≠ none → k = pyUpper k)
    ∧ (∀ k, (SensorStore.run_adds SensorStore.empty ops).history k ≠ [] → k = pyUpper k) := by
  have hempty1 : ∀ k, SensorStore.empty.latest k ≠ none → k = pyUpper k := by
    intro k hk; exact absurd rfl hk
  have hempty2 : ∀ k, SensorStore.empty.history k ≠ [] → k = pyUpper k := by
    intro k hk; exact absurd rfl hk
  refine ⟨rfl, ?_, ?_, ?_, (run_adds_keys_upper ops SensorStore.empty hempty1 hempty2).1,
    (run_adds_keys_upper ops SensorStore.empty hempty1 hempty2).2⟩
  · unfold SensorStore.get_latest
    rw [pyUpper_idem]
  · unfold SensorStore.get_history
    rw [pyUpper_idem]
  · unfold SensorStore.get_reading_age SensorStore.get_latest
    rw [pyUpper_idem]

/-- Witness for the C10 theorem at a concrete store, address and
operation list. -/
theorem c10_uppercase_normalization_witness :
    (SensorReading.make "ab:cd" 1 2 none none none none none).mac = pyUpper "ab:cd"
    ∧ SensorStore.empty.get_latest "ab:cd" = SensorStore.empty.get_latest (pyUpper "ab:cd")
    ∧ SensorStore.empty.get_history "ab:cd" 24 50
        = SensorStore.empty.get_history (pyUpper "ab:cd") 24 50
    ∧ SensorStore.empty.get_reading_age "ab:cd" 50
        = SensorStore.empty.get_reading_age (pyUpper "ab:cd") 50
    ∧ (∀ k, (SensorStore.run_adds SensorStore.empty
        [(1, { mac := "ab:cd", timestamp := 1, temperature := 2 })]).latest k ≠ none →
        k = pyUpper k)
    ∧ (∀ k, (SensorStore.run_adds SensorStore.empty
        [(1, { mac := "ab:cd", timestamp := 1, temperature := 2 })]).history k ≠ [] →
        k = pyUpper k) :=
  c10_uppercase_normalization SensorStore.empty "ab:cd" 24 50 1 2 none none none none none
    [(1, { mac := "ab:cd", timestamp := 1, temperature := 2 })]

/-- A failed read-only poll keeps the cached sensors and weather,
marks the entry offline and records an error. -/
theorem fetchSite_fail (entry : RemoteSiteData) (name : String) (resp : FetchResp)
    (now : ℚ) (hf : fetchFails resp name now) :
    (fetchSite entry name resp now).1.sensors = entry.sensors
    ∧ (fetchSite entry name resp now).1.weather = entry.weather
    ∧ (fetchSite entry name resp now).1.online = false
    ∧ (fetchSite entry name resp now).1.last_error ≠ none := by
  cases resp with
  | netError msg => simp [fetchSite]
  | http status body =>
    unfold fetchFails at hf
    by_cases h200 : status = 200
    · rcases hf with h | h | ⟨j, hj, hp⟩
      · exact absurd h200 h
      · subst h
        simp [fetchSite, h200]
      · subst hj
        simp [fetchSite, h200, hp]
    · simp [fetchSite, h200]

/-- A failed peer-sync iteration keeps the cached sensors and weather,
marks the entry offline and records an error. -/
theorem syncPeer_fail (entry : RemoteSiteData) (name : String) (env : PeerEnv)
    (now : ℚ) (hs : syncFails env name now) :
    (syncPeer entry name env now).1.sensors = entry.sensors
    ∧ (syncPeer entry name env now).1.weather = entry.weather
    ∧ (syncPeer entry name env now).1.online = false
    ∧ (syncPeer entry name env now).1.last_error ≠ none := by
  rcases henv : env.postResp with msg | ⟨status, body⟩
  · unfold syncPeer
    rw [henv]
    simp
  · unfold syncFails at hs
    rw [henv] at hs
    dsimp only at hs
    by_cases h404 : status = 404
    · rw [if_pos h404] at hs
      have hfe := fetchSite_fail entry name env.getResp now hs
      unfold syncPeer
      rw [henv]
      dsimp only
      rw [if_pos h404]
      rcases hres : fetchSite entry name env.getResp now with ⟨e2, reqs⟩
      rw [hres] at hfe
      simpa using hfe
    · rw [if_neg h404] at hs
      by_cases h200 : status = 200
      · rcases hs with h | h | ⟨j, hj, hp⟩
        · exact absurd h200 h
        · subst h
          simp [syncPeer, henv, h404, h200]
        · subst hj
          simp [syncPeer, henv, h404, h200, hp]
      · simp [syncPeer, henv, h404, h200]

/-- C7: a failing poll iteration (transport error, non-200 status, or
parse failure) for a remote site or a peer leaves the entry's cached
sensors and weather unchanged, sets `online` to false and `last_error`
to a non-absent value; an entry with sensors is never emptied. -/
theorem c7_failure_retains_cache (entry : RemoteSiteData) (name : String)
    (resp : FetchResp) (env : PeerEnv) (now : ℚ)
    (hf : fetchFails resp name now) (hs : syncFails env name now) :
    ((fetchSite entry name resp now).1.sensors = entry.sensors
      ∧ (fetchSite entry name resp now).1.weather = entry.weather
      ∧ (fetchSite entry name resp now).1.online = false
      ∧ (fetchSite entry name resp now).1.last_error ≠ none
      ∧ (entry.sensors ≠ [] → (fetchSite entry name resp now).1.sensors ≠ []))
    ∧ ((syncPeer entry name env now).1.sensors = entry.sensors
      ∧ (syncPeer entry name env now).1.weather = entry.weather
      ∧ (syncPeer entry name env now).1.online = false
      ∧ (syncPeer entry name env now).1.last_error ≠ none
      ∧ (entry.sensors ≠ [] → (syncPeer entry name env now).1.sensors ≠ [])) := by
  have h1 := fetchSite_fail entry name resp now hf
  have h2 := syncPeer_fail entry name env now hs
  exact ⟨⟨h1.1, h1.2.1, h1.2.2.1, h1.2.2.2, fun hne => h1.1 ▸ hne⟩,
         ⟨h2.1, h2.2.1, h2.2.2.1, h2.2.2.2, fun hne => h2.1 ▸ hne⟩⟩

/-- Cache entry with one sensor and weather, as after a successful
poll, for the C7 witness. -/
def c7Entry : RemoteSiteData :=
  { site_name := "hut",
    sensors := [{ name := "s1", mac := "AA:01", type := "ruuvi", order := 0 }],
    weather := some { temperature := 3 }, last_fetch := some 5,
    last_error := none, online := true }

/-- Witness for the C7 theorem: a transport error on the read-only
path and an HTTP 500 on the sync path, after a prior success. -/
theorem c7_failure_retains_cache_witness :
    fetchFails (.netError "conn refused") "hut" 9
    ∧ syncFails ⟨.http 500 none, .netError ""⟩ "hut" 9
    ∧ (((fetchSite c7Entry "hut" (.netError "conn refused") 9).1.sensors = c7Entry.sensors
      ∧ (fetchSite c7Entry "hut" (.netError "conn refused") 9).1.weather = c7Entry.weather
      ∧ (fetchSite c7Entry "hut" (.netError "conn refused") 9).1.online = false
      ∧ (fetchSite c7Entry "hut" (.netError "conn refused") 9).1.last_error ≠ none
      ∧ (c7Entry.sensors ≠ [] →
          (fetchSite c7Entry "hut" (.netError "conn refused") 9).1.sensors ≠ []))
    ∧ ((syncPeer c7Entry "hut" ⟨.http 500 none, .netError ""⟩ 9).1.sensors = c7Entry.sensors
      ∧ (syncPeer c7Entry "hut" ⟨.http 500 none, .netError ""⟩ 9).1.weather = c7Entry.weather
      ∧ (syncPeer c7Entry "hut" ⟨.http 500 none, .netError ""⟩ 9).1.online = false
      ∧ (syncPeer c7Entry "hut" ⟨.http 500 none, .netError ""⟩ 9).1.last_error ≠ none
      ∧ (c7Entry.sensors ≠ [] →
          (syncPeer c7Entry "hut" ⟨.http 500 none, .netError ""⟩ 9).1.sensors ≠ []))) :=
  ⟨trivial, by unfold syncFails; norm_num,
   c7_failure_retains_cache c7Entry "hut" (.netError "conn refused")
     ⟨.http 500 none, .netError ""⟩ 9 trivial (by unfold syncFails; norm_num)⟩

/-- Requests one `_sync_peer` call issues, as a function of the
environment only: always the POST, plus the fallback GET when the POST
is answered 404. -/
def syncIterReqs (env : PeerEnv) : List Request :=
  match env.postResp with
  | .netError _ => [syncRequest]
  | .http status _ => if status = 404 then [syncRequest, statusRequest] else [syncRequest]

theorem fetchSite_requests (entry : RemoteSiteData) (name : String) (resp : FetchResp)
    (now : ℚ) : (fetchSite entry name resp now).2 = [statusRequest] := by
  cases resp with
  | netError msg => rfl
  | http status body =>
    unfold fetchSite
    dsimp only
    split_ifs with h
    · rfl
    · cases body with
      | none => rfl
      | some j =>
        dsimp only
        cases parseSiteData j name now <;> rfl

theorem syncPeer_requests (entry : RemoteSiteData) (name : String) (env : PeerEnv)
    (now : ℚ) : (syncPeer entry name env now).2 = syncIterReqs env := by
  rcases henv : env.postResp with msg | ⟨status, body⟩
  · unfold syncPeer syncIterReqs
    rw [henv]
  · unfold syncPeer syncIterReqs
    rw [henv]
    dsimp only
    by_cases h404 : status = 404
    · rw [if_pos h404, if_pos h404]
      rcases hres : fetchSite entry name env.getResp now with ⟨e2, reqs⟩
      have hq := fetchSite_requests entry name env.getResp now
      rw [hres] at hq
      simp at hq
      simp [hq]
    · rw [if_neg h404, if_neg h404]
      by_cases h200 : status = 200
      · subst h200
        cases body with
        | none => rfl
        | some j =>
          dsimp only
          rw [if_neg (by omega)]
          cases parseSiteData j name now <;> rfl
      · rw [if_pos (by omega : status ≠ 200)]

/-- The request trace of the peer polling loop does not depend on the
cached state: every iteration issues the requests its own responses
determine. -/
theorem peerPollIters_requests (envs : List PeerEnv) :
    ∀ (entry : RemoteSiteData) (name : String) (now : ℚ),
      peerPollIters entry name now envs = envs.map syncIterReqs := by
  induction envs with
  | nil => intro entry name now; rfl
  | cons env envs ih =>
    intro entry name now
    unfold peerPollIters
    rcases hres : syncPeer entry name env now with ⟨e2, reqs⟩
    have h2 := syncPeer_requests entry name env now
    rw [hres] at h2
    simp only at h2
    simp [h2, ih]

theorem getD_map_syncIter (l : List PeerEnv) (i : ℕ) (h : i < l.length) :
    (l.map syncIterReqs).getD i [] = syncIterReqs (l.getD i default) := by
  rw [List.getD_eq_getElem _ _ (by simpa using h), List.getD_eq_getElem _ _ h,
    List.getElem_map]

/-- C1, counterexample: a peer that answers 404 to `POST /sync` on the
first iteration (which therefore falls back to `GET /status` in that
iteration) is nevertheless sent `POST /sync` again on the next
iteration — the fallback is not permanent. -/
theorem c1_counterexample :
    (⟨FetchResp.http 404 none, FetchResp.http 200 (some {})⟩ : PeerEnv).postResp
        = FetchResp.http 404 none
    ∧ (peerPollIters { site_name := "peer" } "peer" 0
        [⟨FetchResp.http 404 none, FetchResp.http 200 (some {})⟩,
         ⟨FetchResp.http 404 none, FetchResp.http 200 (some {})⟩]).getD 0 []
        = [syncRequest, statusRequest]
    ∧ syncRequest ∈ (peerPollIters { site_name := "peer" } "peer" 0
        [⟨FetchResp.http 404 none, FetchResp.http 200 (some {})⟩,
         ⟨FetchResp.http 404 none, FetchResp.http 200 (some {})⟩]).getD 1 [] := by
  refine ⟨rfl, ?_, ?_⟩ <;> decide

/-- C1 (amended): an iteration whose `POST /sync` is answered 404
falls back to `GET /status` within that same iteration, but the
fallback is not recorded: every poll iteration, whatever came before,
begins by issuing `POST /sync` again. -/
theorem c1_sync_404_fallback_per_iteration (entry : RemoteSiteData) (name : String)
    (now : ℚ) (envs : List PeerEnv) (i : ℕ) (hi : i < envs.length) :
    (((peerPollIters entry name now envs).getD i []).head? = some syncRequest)
    ∧ (∀ b, (envs.getD i default).postResp = .http 404 b →
        (peerPollIters entry name now envs).getD i [] = [syncRequest, statusRequest]) := by
  rw [peerPollIters_requests envs entry name now, getD_map_syncIter envs i hi]
  constructor
  · rcases h : (envs.getD i default).postResp with msg | ⟨status, body⟩
    · unfold syncIterReqs
      rw [h]
      rfl
    · unfold syncIterReqs
      rw [h]
      dsimp only
      split_ifs <;> rfl
  · intro b hb
    unfold syncIterReqs
    rw [hb]
    rfl

/-- Witness for the amended C1 theorem: the second iteration of a run
whose every POST is answered 404 still begins with `POST /sync`. -/
theorem c1_sync_404_fallback_per_iteration_witness :
    (1 : ℕ) < [(⟨FetchResp.http 404 none, FetchResp.http 200 (some {})⟩ : PeerEnv),
               ⟨FetchResp.http 404 none, FetchResp.http 200 (some {})⟩].length
    ∧ ((((peerPollIters { site_name := "peer" } "peer" 0
          [⟨FetchResp.http 404 none, FetchResp.http 200 (some {})⟩,
           ⟨FetchResp.http 404 none, FetchResp.http 200 (some {})⟩]).getD 1 []).head?
            = some syncRequest)
       ∧ (∀ b, ([(⟨FetchResp.http 404 none, FetchResp.http 200 (some {})⟩ : PeerEnv),
                 ⟨FetchResp.http 404 none, FetchResp.http 200 (some {})⟩].getD 1
                   default).postResp = .http 404 b →
           (peerPollIters { site_name := "peer" } "peer" 0
             [⟨FetchResp.http 404 none, FetchResp.http 200 (some {})⟩,
              ⟨FetchResp.http 404 none, FetchResp.http 200 (some {})⟩]).getD 1 []
             = [syncRequest, statusRequest])) :=
  ⟨by decide,
   c1_sync_404_fallback_per_iteration { site_name := "peer" } "peer" 0
     [⟨FetchResp.http 404 none, FetchResp.http 200 (some {})⟩,
      ⟨FetchResp.http 404 none, FetchResp.http 200 (some {})⟩] 1 (by decide)⟩

theorem storeReading_sensors (st : ScannerState) (r : SensorReading)
    (adv : AdvertisementData) (now : ℚ) :
    (storeReading st r adv now).1.sensors = st.sensors := rfl

theorem fastPath_out (st : ScannerState) (cfg : SensorConfig) (device : BLEDevice)
    (adv : AdvertisementData) (now : ℚ) :
    (fastPath st cfg device adv now).1.sensors = st.sensors
    ∧ (fastPath st cfg device adv now).2.probed = false
    ∧ (fastPath st cfg device adv now).2.registered = false := by
  unfold fastPath
  cases parseByType cfg.type device adv now <;> exact ⟨rfl, rfl, rfl⟩

theorem registerHit_out (st : ScannerState) (mac : String) (ty : SensorType)
    (p : Option SensorReading) (adv : AdvertisementData) (now : ℚ) :
    (registerHit st mac ty p adv now).1.sensors
      = addSensor st.sensors mac (generatedName ty mac) ty
    ∧ (registerHit st mac ty p adv now).2.registered = true
    ∧ (registerHit st mac ty p adv now).2.probed = true := by
  unfold registerHit
  cases p <;> exact ⟨rfl, rfl, rfl⟩

theorem getSensorByMac_append_mono (sensors l2 : List SensorConfig) (m : String)
    (h : getSensorByMac sensors m ≠ none) :
    getSensorByMac (sensors ++ l2) m ≠ none := by
  unfold getSensorByMac at *
  rw [List.find?_append]
  rcases hf : sensors.find? (fun s => decide (s.mac = pyUpper m)) with _ | cfg
  · exact absurd hf h
  · simp [hf]

theorem getSensorByMac_append_self (sensors : List SensorConfig) (cfg : SensorConfig)
    (m : String) (hcfg : cfg.mac = pyUpper m) :
    getSensorByMac (sensors ++ [cfg]) m ≠ none := by
  unfold getSensorByMac
  rw [List.find?_append]
  rcases hf : sensors.find? (fun s => decide (s.mac = pyUpper m)) with _ | d
  · simp [List.find?, hcfg]
  · simp [hf]

theorem addSensor_found_mono (sensors : List SensorConfig) (m2 name : String)
    (ty : SensorType) (m : String) (h : getSensorByMac sensors m ≠ none) :
    getSensorByMac (addSensor sensors m2 name ty) m ≠ none := by
  unfold addSensor
  rcases hf : getSensorByMac sensors m2 with _ | cfg
  · exact getSensorByMac_append_mono sensors _ m h
  · exact h

theorem addSensor_self_found (sensors : List SensorConfig) (m name : String)
    (ty : SensorType) :
    getSensorByMac (addSensor sensors m name ty) m ≠ none := by
  unfold addSensor
  rcases hf : getSensorByMac sensors m with _ | cfg
  · refine getSensorByMac_append_self sensors _ m ?_
    show pyUpper (pyUpper m) = pyUpper m
    exact pyUpper_idem m
  · intro hnone
    rw [hf] at hnone
    cases hnone

theorem probeAndRegister_sensors (st : ScannerState) (mac : String)
    (device : BLEDevice) (adv : AdvertisementData) (now : ℚ) :
    (probeAndRegister st mac device adv now).1.sensors = st.sensors
    ∨ ∃ ty, (probeAndRegister st mac device adv now).1.sensors
        = addSensor st.sensors mac (generatedName ty mac) ty := by
  unfold probeAndRegister
  split_ifs with h1 h2
  · exact Or.inr ⟨.ruuvi, (registerHit_out st mac .ruuvi _ adv now).1⟩
  · exact Or.inr ⟨.xiaomi, (registerHit_out st mac .xiaomi _ adv now).1⟩
  · exact Or.inl rfl

theorem probeAndRegister_registered (st : ScannerState) (mac : String)
    (device : BLEDevice) (adv : AdvertisementData) (now : ℚ) :
    (probeAndRegister st mac device adv now).2.registered
      = (RuuviParser.can_parse adv || XiaomiParser.can_parse adv) := by
  unfold probeAndRegister
  split_ifs with h1 h2
  · rw [(registerHit_out st mac .ruuvi _ adv now).2.1, h1]
    rfl
  · rw [(registerHit_out st mac .xiaomi _ adv now).2.1]
    rw [Bool.not_eq_true] at h1
    rw [h1, h2]
    rfl
  · rw [Bool.not_eq_true] at h1 h2
    rw [h1, h2]
    rfl

theorem probeAndRegister_probed (st : ScannerState) (mac : String)
    (device : BLEDevice) (adv : AdvertisementData) (now : ℚ) :
    (probeAndRegister st mac device adv now).2.probed = true := by
  unfold probeAndRegister
  split_ifs with h1 h2
  · exact (registerHit_out st mac .ruuvi _ adv now).2.2
  · exact (registerHit_out st mac .xiaomi _ adv now).2.2
  · rfl

theorem probeAndRegister_registered_found (st : ScannerState) (mac : String)
    (device : BLEDevice) (adv : AdvertisementData) (now : ℚ)
    (h : (probeAndRegister st mac device adv now).2.registered = true) :
    getSensorByMac (probeAndRegister st mac device adv now).1.sensors mac ≠ none := by
  unfold probeAndRegister at h ⊢
  split_ifs at h ⊢ with h1 h2
  · rw [(registerHit_out _ _ _ _ _ _).1]
    exact addSensor_self_found _ _ _ _
  · rw [(registerHit_out _ _ _ _ _ _).1]
    exact addSensor_self_found _ _ _ _

theorem detectionCallback_registered_found (st : ScannerState) (device : BLEDevice)
    (adv : AdvertisementData) (now : ℚ)
    (h : (detectionCallback st device adv now).2.registered = true) :
    getSensorByMac (detectionCallback st device adv now).1.sensors
      (pyUpper device.address) ≠ none := by
  unfold detectionCallback at h ⊢
  rcases hm : getSensorByMac st.sensors (pyUpper device.address) with _ | cfg
  · rw [hm] at h
    dsimp only at h ⊢
    by_cases hd : pyUpper device.address ∈ st.discovered
    · rw [if_pos hd] at h
      cases h
    · rw [if_neg hd] at h ⊢
      exact probeAndRegister_registered_found _ _ _ _ _ h
  · rw [hm] at h
    dsimp only at h
    rw [(fastPath_out st cfg device adv now).2.2] at h
    cases h

theorem detectionCallback_found_mono (st : ScannerState) (device : BLEDevice)
    (adv : AdvertisementData) (now : ℚ) (m : String)
    (h : getSensorByMac st.sensors m ≠ none) :
    getSensorByMac (detectionCallback st device adv now).1.sensors m ≠ none := by
  unfold detectionCallback
  rcases hm : getSensorByMac st.sensors (pyUpper device.address) with _ | cfg
  · dsimp only
    split_ifs with hd
    · exact h
    · rcases probeAndRegister_sensors st (pyUpper device.address) device adv now with
        hs | ⟨ty, hs⟩
      · rw [hs]
        exact h
      · rw [hs]
        exact addSensor_found_mono _ _ _ _ _ h
  · dsimp only
    rw [show (fastPath st cfg device adv now).1.sensors = st.sensors from
      (fastPath_out st cfg device adv now).1]
    exact h

theorem detectionCallback_known_not_probed (st : ScannerState) (device : BLEDevice)
    (adv : AdvertisementData) (now : ℚ)
    (h : getSensorByMac st.sensors (pyUpper device.address) ≠ none) :
    (detectionCallback st device adv now).2.probed = false := by
  unfold detectionCallback
  rcases hm : getSensorByMac st.sensors (pyUpper device.address) with _ | cfg
  · exact absurd hm h
  · dsimp only
    exact (fastPath_out st cfg device adv now).2.1

theorem runScanner_cons (st : ScannerState) (e : ScanEvent) (es : List ScanEvent) :
    runScanner st (e :: es)
      = ((runScanner (detectionCallback st e.device e.adv e.now).1 es).1,
         (detectionCallback st e.device e.adv e.now).2
           :: (runScanner (detectionCallback st e.device e.adv e.now).1 es).2) := rfl

theorem runScanner_known_not_probed (events : List ScanEvent) :
    ∀ (st : ScannerState) (m : String),
      getSensorByMac st.sensors m ≠ none →
      ∀ j, pyUpper (events.getD j default).device.address = m →
        j < events.length →
        ((runScanner st events).2.getD j default).probed = false := by
  induction events with
  | nil =>
    intro st m hm j hj hlt
    cases hlt
  | cons e es ih =>
    intro st m hm j hj hlt
    rw [runScanner_cons]
    dsimp only
    cases j with
    | zero =>
      rw [List.getD_cons_zero]
      apply detectionCallback_known_not_probed
      rw [show pyUpper e.device.address = m from hj]
      exact hm
    | succ j2 =>
      rw [List.getD_cons_succ]
      refine ih (detectionCallback st e.device e.adv e.now).1 m
        (detectionCallback_found_mono st e.device e.adv e.now m hm) j2 hj ?_
      exact Nat.lt_of_succ_lt_succ hlt

theorem runScanner_registered_never_reprobed (events : List ScanEvent) :
    ∀ (st : ScannerState) (i j : ℕ), i < j → j < events.length →
      ((runScanner st events).2.getD i default).registered = true →
      pyUpper (events.getD j default).device.address
        = pyUpper (events.getD i default).device.address →
      ((runScanner st events).2.getD j default).probed = false := by
  induction events with
  | nil =>
    intro st i j hij hj hreg hmac
    cases hj
  | cons e es ih =>
    intro st i j hij hj hreg hmac
    rw [runScanner_cons] at hreg ⊢
    dsimp only at hreg ⊢
    obtain ⟨j2, rfl⟩ : ∃ j2, j = j2 + 1 := ⟨j - 1, by omega⟩
    rw [List.getD_cons_succ]
    cases i with
    | zero =>
      rw [List.getD_cons_zero] at hreg
      have hfound := detectionCallback_registered_found st e.device e.adv e.now hreg
      refine runScanner_known_not_probed es (detectionCallback st e.device e.adv e.now).1
        (pyUpper e.device.address) hfound j2 ?_ (Nat.lt_of_succ_lt_succ hj)
      simpa using hmac
    | succ i2 =>
      rw [List.getD_cons_succ] at hreg
      refine ih (detectionCallback st e.device e.adv e.now).1 i2 j2
        (Nat.lt_of_succ_lt_succ hij) (Nat.lt_of_succ_lt_succ hj) hreg ?_
      simpa using hmac

/-- A Ruuvi advertisement whose manufacturer data is the single byte
`0x03`: `can_parse` accepts it (format byte 3) but `_parse_df3`
rejects it (14-byte minimum), so decode fails. -/
def ruuviFormatByteOnly : AdvertisementData :=
  { manufacturer_data := [(RuuviParser.RUUVI_MANUFACTURER_ID, [3])] }

/-- C4, counterexample: an unknown device whose advertisement passes a
decoder's `can_parse` probe is auto-registered even though the
decoder's decode returns nothing — registration is keyed to the probe,
not to a successful decode. -/
theorem c4_counterexample :
    (detectionCallback ⟨[], [], SensorStore.empty⟩ ⟨"AA:BB:CC:DD:EE:FF"⟩
        ruuviFormatByteOnly 0).2.registered = true
    ∧ (detectionCallback ⟨[], [], SensorStore.empty⟩ ⟨"AA:BB:CC:DD:EE:FF"⟩
        ruuviFormatByteOnly 0).2.reading = none
    ∧ RuuviParser.parse ⟨"AA:BB:CC:DD:EE:FF"⟩ ruuviFormatByteOnly 0 = none := by
  refine ⟨?_, ?_, ?_⟩ <;> decide

/-- C4 (amended): an advertisement from a device that is neither
configured nor already discovered is probed against the decoder set
(`probed = true`); it is auto-registered exactly when a decoder's
`can_parse` probe succeeds — even if that decoder's decode then fails —
under the generated name built from the kind and the address tail; and
once registered at some step of a run, a later advertisement from the
same device is never probed again. -/
theorem c4_probe_registration (st : ScannerState) (device : BLEDevice)
    (adv : AdvertisementData) (now : ℚ)
    (hunknown : getSensorByMac st.sensors (pyUpper device.address) = none)
    (hundisc : pyUpper device.address ∉ st.discovered)
    (events : List ScanEvent) (st0 : ScannerState) (i j : ℕ)
    (hij : i < j) (hj : j < events.length)
    (hreg : ((runScanner st0 events).2.getD i default).registered = true)
    (hmac : pyUpper (events.getD j default).device.address
        = pyUpper (events.getD i default).device.address) :
    (detectionCallback st device adv now).2.probed = true
    ∧ (detectionCallback st device adv now).2.registered
        = (RuuviParser.can_parse adv || XiaomiParser.can_parse adv)
    ∧ (RuuviParser.can_parse adv = true →
        SensorConfig.make (pyUpper device.address)
          (generatedName .ruuvi (pyUpper device.address)) .ruuvi
          ∈ (detectionCallback st device adv now).1.sensors)
    ∧ (RuuviParser.can_parse adv = false → XiaomiParser.can_parse adv = true →
        SensorConfig.make (pyUpper device.address)
          (generatedName .xiaomi (pyUpper device.address)) .xiaomi
          ∈ (detectionCallback st device adv now).1.sensors)
    ∧ ((runScanner st0 events).2.getD j default).probed = false := by
  have hcb : detectionCallback st device adv now
      = probeAndRegister st (pyUpper device.address) device adv now := by
    unfold detectionCallback
    rw [hunknown]
    dsimp only
    rw [if_neg hundisc]
  refine ⟨?_, ?_, ?_, ?_, ?_⟩
  · rw [hcb]
    exact probeAndRegister_probed _ _ _ _ _
  · rw [hcb]
    exact probeAndRegister_registered _ _ _ _ _
  · intro hru
    rw [hcb]
    unfold probeAndRegister
    rw [if_pos hru, (registerHit_out _ _ _ _ _ _).1]
    unfold addSensor
    rw [hunknown]
    dsimp only
    rw [pyUpper_idem device.address]
    exact List.mem_append_right _ (List.mem_singleton.mpr rfl)
  · intro hru hx
    rw [hcb]
    unfold probeAndRegister
    rw [if_neg (by rw [hru]; exact Bool.false_ne_true), if_pos hx,
      (registerHit_out _ _ _ _ _ _).1]
    unfold addSensor
    rw [hunknown]
    dsimp only
    rw [pyUpper_idem device.address]
    exact List.mem_append_right _ (List.mem_singleton.mpr rfl)
  · exact runScanner_registered_never_reprobed events st0 i j hij hj hreg hmac

/-- Event used by the C4 witness: an advertisement carrying a full
18-byte DF5 frame from an unconfigured device. -/
def c4Event : ScanEvent :=
  { device := ⟨"AA:BB:CC:DD:EE:FF"⟩, adv := paddedDf5Adv, now := 0 }

/-- Witness for the amended C4 theorem: the first advertisement from
an unknown Ruuvi device registers it, and the second advertisement of
the run is not probed. -/
theorem c4_probe_registration_witness :
    getSensorByMac ([] : List SensorConfig) (pyUpper "AA:BB:CC:DD:EE:FF") = none
    ∧ pyUpper "AA:BB:CC:DD:EE:FF" ∉ ([] : List String)
    ∧ (0 : ℕ) < 1 ∧ 1 < [c4Event, c4Event].length
    ∧ ((runScanner ⟨[], [], SensorStore.empty⟩ [c4Event, c4Event]).2.getD 0
        default).registered = true
    ∧ pyUpper ([c4Event, c4Event].getD 1 default).device.address
        = pyUpper ([c4Event, c4Event].getD 0 default).device.address
    ∧ ((detectionCallback ⟨[], [], SensorStore.empty⟩ ⟨"AA:BB:CC:DD:EE:FF"⟩
          paddedDf5Adv 0).2.probed = true
      ∧ (detectionCallback ⟨[], [], SensorStore.empty⟩ ⟨"AA:BB:CC:DD:EE:FF"⟩
          paddedDf5Adv 0).2.registered
          = (RuuviParser.can_parse paddedDf5Adv || XiaomiParser.can_parse paddedDf5Adv)
      ∧ (RuuviParser.can_parse paddedDf5Adv = true →
          SensorConfig.make (pyUpper "AA:BB:CC:DD:EE:FF")
            (generatedName .ruuvi (pyUpper "AA:BB:CC:DD:EE:FF")) .ruuvi
            ∈ (detectionCallback ⟨[], [], SensorStore.empty⟩ ⟨"AA:BB:CC:DD:EE:FF"⟩
                paddedDf5Adv 0).1.sensors)
      ∧ (RuuviParser.can_parse paddedDf5Adv = false →
          XiaomiParser.can_parse paddedDf5Adv = true →
          SensorConfig.make (pyUpper "AA:BB:CC:DD:EE:FF")
            (generatedName .xiaomi (pyUpper "AA:BB:CC:DD:EE:FF")) .xiaomi
            ∈ (detectionCallback ⟨[], [], SensorStore.empty⟩ ⟨"AA:BB:CC:DD:EE:FF"⟩
                paddedDf5Adv 0).1.sensors)
      ∧ ((runScanner ⟨[], [], SensorStore.empty⟩ [c4Event, c4Event]).2.getD 1
          default).probed = false) :=
  ⟨by decide, by decide, by decide, by decide, by decide, rfl,
   c4_probe_registration ⟨[], [], SensorStore.empty⟩ ⟨"AA:BB:CC:DD:EE:FF"⟩
     paddedDf5Adv 0 (by decide) (by decide) [c4Event, c4Event]
     ⟨[], [], SensorStore.empty⟩ 0 1 (by decide) (by decide) (by decide) rfl⟩

/-- Every bucket the aggregator produces carries the tick's 5-minute
floored `bucket_start` and the sensor's configured address. -/
theorem aggregateSensor_some (mac : String) (now : ℚ) (rs : List SensorReading)
    (w : AggWrite) (h : aggregateSensor mac now rs = some w) :
    w.timestamp = floor5min now ∧ w.mac = mac := by
  unfold aggregateSensor at h
  dsimp only at h
  rcases hr : rs.filter (fun r => decide (now - AGGREGATION_INTERVAL ≤ r.timestamp))
      with _ | ⟨r0, rest⟩
  · rw [hr] at h; cases h
  · rw [hr] at h
    dsimp only at h
    simp only [Option.some.injEq] at h
    subst h
    exact ⟨rfl, rfl⟩

/-- The aggregator skips a sensor exactly when no reading of the
window survives the 5-minute filter. -/
theorem aggregateSensor_none_iff (mac : String) (now : ℚ) (rs : List SensorReading) :
    aggregateSensor mac now rs = none ↔
      rs.filter (fun r => decide (now - AGGREGATION_INTERVAL ≤ r.timestamp)) = [] := by
  unfold aggregateSensor
  dsimp only
  rcases hr : rs.filter (fun r => decide (now - AGGREGATION_INTERVAL ≤ r.timestamp))
      with _ | ⟨r0, rest⟩ <;> rw [hr] <;> simp

/-- With pairwise distinct configured addresses, the writes of one
aggregation pass carrying a given sensor's address are exactly that
sensor's own optional bucket. -/
theorem aggregate_writes_for (st : SensorStore) (now : ℚ) :
    ∀ (sensors : List SensorConfig),
      (sensors.map (fun c => c.mac)).Nodup →
      ∀ c ∈ sensors,
        (aggregate now sensors st).filter (fun w => w.mac = c.mac)
          = (aggregateSensor c.mac now (st.get_history c.mac 1 now)).toList := by
  intro sensors
  induction sensors with
  | nil => intro _ c hc; cases hc
  | cons hd tl ih =>
    intro hnd c hc
    have hnd2 : (tl.map (fun c => c.mac)).Nodup := (List.nodup_cons.mp hnd).2
    have hhd : hd.mac ∉ tl.map (fun c => c.mac) := (List.nodup_cons.mp hnd).1
    have hagg : aggregate now (hd :: tl) st
        = (aggregateSensor hd.mac now (st.get_history hd.mac 1 now)).toList
          ++ aggregate now tl st := by
      unfold aggregate
      rcases hh : aggregateSensor hd.mac now (st.get_history hd.mac 1 now) with _ | w
      · simp [List.filterMap_cons, hh]
      · simp [List.filterMap_cons, hh]
    rcases List.mem_cons.mp hc with hc | hc
    · subst hc
      rw [hagg, List.filter_append]
      have h1 : (aggregateSensor c.mac now (st.get_history c.mac 1 now)).toList.filter
          (fun w => decide (w.mac = c.mac))
          = (aggregateSensor c.mac now (st.get_history c.mac 1 now)).toList := by
        rcases hh : aggregateSensor c.mac now (st.get_history c.mac 1 now) with _ | w
        · simp
        · have hw := (aggregateSensor_some _ _ _ _ hh).2
          simp [List.filter, hw]
      have h2 : (aggregate now tl st).filter (fun w => decide (w.mac = c.mac)) = [] := by
        rw [List.filter_eq_nil_iff]
        intro w hw
        simp only [aggregate, List.mem_filterMap] at hw
        obtain ⟨d, hd2, hwd⟩ := hw
        have hmac := (aggregateSensor_some _ _ _ _ hwd).2
        simp only [decide_eq_true_eq]
        intro heq
        exact hhd (List.mem_map.mpr ⟨d, hd2, hmac.symm.trans heq⟩)
      rw [h1, h2, List.append_nil]
    · have hcmac : c.mac ∈ tl.map (fun c => c.mac) := List.mem_map.mpr ⟨c, hc, rfl⟩
      have hne : hd.mac ≠ c.mac := fun h => hhd (h ▸ hcmac)
      rw [hagg, List.filter_append]
      have h1 : (aggregateSensor hd.mac now (st.get_history hd.mac 1 now)).toList.filter
          (fun w => decide (w.mac = c.mac)) = [] := by
        rcases hh : aggregateSensor hd.mac now (st.get_history hd.mac 1 now) with _ | w
        · simp
        · have hw := (aggregateSensor_some _ _ _ _ hh).2
          simp [List.filter, hw, hne]
      rw [h1, List.nil_append]
      exact ih hnd2 c hc

/-- C9: on an aggregation tick at time `now` (all stored timestamps at
or before `now`, configured addresses distinct), a configured sensor
with no reading inside the just-elapsed 5-minute window contributes no
bucket write, and a sensor with such a reading contributes exactly one
bucket write whose `bucket_start` is `now` floored to the 5-minute
grid. -/
theorem c9_aggregation_tick (sensors : List SensorConfig) (st : SensorStore) (now : ℚ)
    (hts : ∀ k r, r ∈ st.history k → r.timestamp ≤ now)
    (hnd : (sensors.map (fun c => c.mac)).Nodup) :
    ∀ c ∈ sensors,
      ((∀ r ∈ st.history (pyUpper c.mac),
          ¬(now - AGGREGATION_INTERVAL ≤ r.timestamp ∧ r.timestamp ≤ now)) →
        (aggregate now sensors st).filter (fun w => w.mac = c.mac) = [])
      ∧ ((∃ r ∈ st.history (pyUpper c.mac),
            now - AGGREGATION_INTERVAL ≤ r.timestamp ∧ r.timestamp ≤ now) →
          ∃ w, (aggregate now sensors st).filter (fun w => w.mac = c.mac) = [w]
            ∧ w.timestamp = floor5min now) := by
  intro c hc
  rw [aggregate_writes_for st now sensors hnd c hc]
  have hhist : st.get_history c.mac 1 now
      = (st.history (pyUpper c.mac)).filter
          (fun r => decide (now - 1 * 3600 ≤ r.timestamp)) := rfl
  constructor
  · intro hnone
    have hfil : (st.get_history c.mac 1 now).filter
        (fun r => decide (now - AGGREGATION_INTERVAL ≤ r.timestamp)) = [] := by
      rw [List.filter_eq_nil_iff]
      intro r hr
      have hmem : r ∈ st.history (pyUpper c.mac) := by
        rw [hhist] at hr
        exact (List.mem_filter.mp hr).1
      have hle : r.timestamp ≤ now := hts _ r hmem
      have hno := hnone r hmem
      simp only [decide_eq_true_eq]
      intro hge
      exact hno ⟨hge, hle⟩
    rw [(aggregateSensor_none_iff c.mac now (st.get_history c.mac 1 now)).mpr hfil]
    rfl
  · rintro ⟨r, hr, h1, h2⟩
    rcases hagg : aggregateSensor c.mac now (st.get_history c.mac 1 now) with _ | w
    · exfalso
      have hfil := (aggregateSensor_none_iff c.mac now (st.get_history c.mac 1 now)).mp hagg
      have hmem : r ∈ (st.get_history c.mac 1 now).filter
          (fun r => decide (now - AGGREGATION_INTERVAL ≤ r.timestamp)) := by
        rw [List.mem_filter]
        constructor
        · rw [hhist, List.mem_filter]
          refine ⟨hr, ?_⟩
          simp only [decide_eq_true_eq]
          unfold AGGREGATION_INTERVAL at h1
          linarith
        · simp only [decide_eq_true_eq]
          exact h1
      rw [hfil] at hmem
      cases hmem
    · exact ⟨w, rfl, (aggregateSensor_some _ _ _ _ hagg).1⟩

/-- Store holding one reading for sensor AA:09 at time 1000, for the
C9 witness. -/
def c9Store : SensorStore :=
  { latest := fun _ => none,
    history := fun k =>
      if k = "AA:09" then [{ mac := "AA:09", timestamp := 1000, temperature := 21 }]
      else [] }

/-- Witness for the C9 theorem: one configured sensor whose only
reading lies inside the window of the tick at `now = 1100`. -/
theorem c9_aggregation_tick_witness :
    (∀ k r, r ∈ c9Store.history k → r.timestamp ≤ 1100)
    ∧ (([⟨"AA:09", "t9", SensorType.ruuvi⟩] : List SensorConfig).map
        (fun c => c.mac)).Nodup
    ∧ ∀ c ∈ ([⟨"AA:09", "t9", SensorType.ruuvi⟩] : List SensorConfig),
        ((∀ r ∈ c9Store.history (pyUpper c.mac),
            ¬((1100 : ℚ) - AGGREGATION_INTERVAL ≤ r.timestamp ∧ r.timestamp ≤ 1100)) →
          (aggregate 1100 [⟨"AA:09", "t9", SensorType.ruuvi⟩] c9Store).filter
            (fun w => w.mac = c.mac) = [])
        ∧ ((∃ r ∈ c9Store.history (pyUpper c.mac),
              (1100 : ℚ) - AGGREGATION_INTERVAL ≤ r.timestamp ∧ r.timestamp ≤ 1100) →
            ∃ w, (aggregate 1100 [⟨"AA:09", "t9", SensorType.ruuvi⟩] c9Store).filter
                (fun w => w.mac = c.mac) = [w]
              ∧ w.timestamp = floor5min 1100) := by
  have hts : ∀ k r, r ∈ c9Store.history k → r.timestamp ≤ 1100 := by
    intro k r hr
    unfold c9Store at hr
    dsimp only at hr
    split_ifs at hr with hk
    · rcases List.mem_singleton.mp hr with rfl
      norm_num
    · cases hr
  refine ⟨hts, by decide, ?_⟩
  exact c9_aggregation_tick [⟨"AA:09", "t9", SensorType.ruuvi⟩] c9Store 1100 hts (by decide)

/-- Concrete DF3 payload with a negative integer temperature part
(byte 2 is 200, i.e. −56 signed) for the C8 witness. -/
def df3Payload : List ℕ :=
  [0x03, 0x28, 0xC8, 0x32, 0xC2, 0x7C, 0x00, 0x00, 0x00, 0x00, 0x00, 0x00, 0x0B, 0xB8]

/-- Witness for the C8 theorem at a concrete 14-byte DF3 payload. -/
theorem c8_df3_fields_witness :
    14 ≤ df3Payload.length
    ∧ ∃ r, RuuviParser.parse_df3 "AA" 0 df3Payload = some r
      ∧ r.temperature =
          (let ti : ℤ :=
            if byteAt df3Payload 2 > 127 then (byteAt df3Payload 2 : ℤ) - 256
            else (byteAt df3Payload 2 : ℤ)
           (ti : ℚ) + (if ti ≥ 0 then (byteAt df3Payload 3 : ℚ) / 100
             else -((byteAt df3Payload 3 : ℚ) / 100)))
      ∧ r.pressure = some (((beU16 df3Payload 4 : ℚ) + 50000) / 100)
      ∧ r.battery_voltage = some ((beU16 df3Payload 12 : ℚ) / 1000) :=
  ⟨by decide, c8_df3_fields "AA" 0 df3Payload (by decide)⟩

end Hutwatch
